import Mathlib

/-!
Shallow embedding of the result-persistence layer in `src/prefect/results.py`:
the `ResultStore` coordinator, the `ResultRecord`/`ResultRecordMetadata` data
model (with the legacy-format migration), and the `PersistedResult` reference
state machine.  External capabilities (storage backends, serializers, the lock
manager protocol, the isolation-level enumeration) are modelled from the spec's
interface descriptions, since their implementations live outside this core.

Values are abstract (`V`), payload bytes are abstract (`B`); byte blobs held in
storage are modelled structurally by what they parse as (`Blob`).  Timestamps
are modelled as `Nat`, UUIDs as `String`.
-/

set_option autoImplicit false

namespace PrefectResults

variable {V B : Type}

/-- Error kinds surfaced by the embedded code paths.  `runtimeError` models
Python's `RuntimeError` (raised by `_persist_result_record` on a contested
lock), `configurationError` models `prefect.exceptions.ConfigurationError`,
`serializationError` models `prefect.exceptions.SerializationError`,
`validationError` models a pydantic validation failure, `attributeError` models
an attribute access on `None`, `assertionError` models a failed `assert`, and
`wouldBlock` models an operation that would block waiting on a held lock. -/
inductive Err where
  | notFound
  | attributeError
  | typeError
  | valueError
  | assertionError
  | runtimeError
  | configurationError
  | serializationError
  | validationError
  | wouldBlock
  deriving DecidableEq, Repr

/-- Whether an `Except` computation succeeded. -/
def exceptIsOk {ε α : Type} : Except ε α → Bool
  | .ok _ => true
  | .error _ => false

/-- Modelled from the spec: the external serializer capability (§6) — `dumps`
and `loads` over a value type, with a stable string `type` identifier recorded
in metadata.  Concrete serializers (pickle, json) live outside this core, so
encode/decode are abstract and fallible. -/
structure Serializer (V B : Type) where
  type : String
  dumps : V → Except Err B
  loads : B → Except Err V

/-- `ResultRecordMetadata` from `results.py`: storage key (optional only for
backward compatibility), expiration, serializer descriptor, origin runtime
version, and the storage block id. -/
structure ResultRecordMetadata (V B : Type) where
  storage_key : Option String := none
  expiration : Option Nat := none
  serializer : Serializer V B
  prefect_version : String := "model"
  storage_block_id : Option String := none

/-- The structural content of a byte blob held in storage: a combined record
document (`ResultRecord.serialize`), a raw serializer payload
(`serialize_result`), or a metadata document (`serialize_metadata`).  The
underlying bytes are untyped in the source; the constructors model what the
bytes parse as. -/
inductive Blob (V B : Type) where
  | record (m : ResultRecordMetadata V B) (payloadBytes : B)
  | payload (b : B)
  | metadataBlob (m : ResultRecordMetadata V B)

/-- Modelled from the spec: a storage backend (§6) — keyed byte storage with
`read_path`/`write_path`, an optional path-resolution capability
(`_resolve_path`, probed by `PersistedResult._infer_path`), and an optional
block-document id. -/
structure Storage (V B : Type) where
  contents : List (String × Blob V B)
  resolve_path : Option (String → String) := none
  block_document_id : Option String := none

/-- `read_path`: look a key up in a storage backend; a missing key raises. -/
def readPath (s : Storage V B) (key : String) : Except Err (Blob V B) :=
  match s.contents.lookup key with
  | some b => .ok b
  | none => .error .notFound

/-- `write_path`: store bytes under a key, overwriting any previous value. -/
def writePath (s : Storage V B) (key : String) (b : Blob V B) : Storage V B :=
  { s with contents := (key, b) :: s.contents }

/-- Modelled from the spec: the lock-manager state (§4.4), a per-key map from
locked key to the holder identity that acquired it. -/
abbrev LockState := List (String × String)

/-- Lock-manager `is_locked`. -/
def is_locked (ls : LockState) (key : String) : Bool :=
  (ls.lookup key).isSome

/-- Lock-manager `is_lock_holder`. -/
def is_lock_holder (ls : LockState) (key holder : String) : Bool :=
  ls.lookup key == some holder

/-- `get_default_persist_setting` (the setting defaults to `False`). -/
def get_default_persist_setting : Bool := false

/-- `DEFAULT_STORAGE_KEY_FN`: mints a fresh uuid4 hex key; the uuid generator
is external, modelled as an opaque fresh-key constant. -/
def DEFAULT_STORAGE_KEY_FN : Unit → String := fun _ => "uuid4-hex-key"

/-- `ResultStore.generate_default_holder`: derived from host name, pid and
thread identity; external to this core, modelled as a constant. -/
def generate_default_holder : String := "host:pid:tid:thread"

/-- `ResultStore`: result storage, optional separate metadata storage, optional
lock manager (its state), persistence and caching flags, serializer, and the
storage-key minting function. -/
structure ResultStore (V B : Type) where
  result_storage : Option (Storage V B) := none
  metadata_storage : Option (Storage V B) := none
  lock_manager : Option LockState := none
  persist_result : Bool := get_default_persist_setting
  cache_result_in_memory : Bool := true
  serializer : Serializer V B
  storage_key_fn : Unit → String := DEFAULT_STORAGE_KEY_FN

/-- `ResultStore.result_storage_block_id` property. -/
def ResultStore.result_storage_block_id (store : ResultStore V B) : Option String :=
  match store.result_storage with
  | none => none
  | some rs => rs.block_document_id

/-- `ResultRecord`: metadata plus the materialized result value. -/
structure ResultRecord (V B : Type) where
  metadata : ResultRecordMetadata V B
  result : V

/-- `ResultRecord.serialize_result`: encode the value with the declared
serializer; a failure is wrapped into a `SerializationError`. -/
def ResultRecord.serialize_result (rec : ResultRecord V B) : Except Err B :=
  match rec.metadata.serializer.dumps rec.result with
  | .ok b => .ok b
  | .error _ => .error .serializationError

/-- `ResultRecordMetadata.dump_bytes`: the metadata document blob. -/
def ResultRecordMetadata.dump_bytes (m : ResultRecordMetadata V B) : Blob V B :=
  .metadataBlob m

/-- `ResultRecordMetadata.load_bytes`: parse a metadata document; bytes that do
not parse as metadata fail validation. -/
def ResultRecordMetadata.load_bytes (blob : Blob V B) :
    Except Err (ResultRecordMetadata V B) :=
  match blob with
  | .metadataBlob m => .ok m
  | _ => .error .validationError

/-- `ResultRecord.serialize_metadata`. -/
def ResultRecord.serialize_metadata (rec : ResultRecord V B) : Blob V B :=
  rec.metadata.dump_bytes

/-- `ResultRecord.serialize`: one combined self-contained blob embedding the
metadata and the serializer-encoded payload. -/
def ResultRecord.serialize (rec : ResultRecord V B) : Except Err (Blob V B) :=
  match rec.serialize_result with
  | .ok b => .ok (.record rec.metadata b)
  | .error e => .error e

/-- `ResultRecord.deserialize`: parse a combined blob and decode the embedded
payload with the serializer named in the metadata.  A decode failure
propagates unwrapped, as in the source. -/
def ResultRecord.deserialize (blob : Blob V B) : Except Err (ResultRecord V B) :=
  match blob with
  | .record m b =>
    match m.serializer.loads b with
    | .ok v => .ok { metadata := m, result := v }
    | .error e => .error e
  | _ => .error .validationError

/-- `ResultRecord.deserialize_from_result_and_metadata`: compose a record from
two independently retrieved blobs, decoding the payload with the serializer
named in the metadata.  A result blob that is not a raw payload document fails
validation (model artifact: the source would hand arbitrary bytes to
`serializer.loads`). -/
def ResultRecord.deserialize_from_result_and_metadata
    (result : Blob V B) (metadata : Blob V B) : Except Err (ResultRecord V B) :=
  match ResultRecordMetadata.load_bytes metadata with
  | .error e => .error e
  | .ok m =>
    match result with
    | .payload b =>
      match m.serializer.loads b with
      | .ok v => .ok { metadata := m, result := v }
      | .error e => .error e
    | _ => .error .validationError

/-- `ResultStore._exists`: probe metadata storage when configured, otherwise
result storage; every failure (missing key, read error, unconfigured storage)
is caught and reported as `false`. -/
def ResultStore._exists (store : ResultStore V B) (key : String) : Bool :=
  match store.metadata_storage with
  | some ms =>
    match readPath ms key with
    | .ok _ => true
    | .error _ => false
  | none =>
    match store.result_storage with
    | some rs =>
      match readPath rs key with
      | .ok _ => true
      | .error _ => false
    | none => false

/-- The contested-lock test in `_persist_result_record`: the key is locked and
the caller is not the holder. -/
def lockedByOtherGuard (lm : Option LockState) (key holder : String) : Bool :=
  match lm with
  | some ls => is_locked ls key && !(is_lock_holder ls key holder)
  | none => false

/-- The lock wait at the head of `_read`: when a lock manager is configured
and the caller is not the holder, wait for the lock (blocking on a held lock
is modelled as the `wouldBlock` outcome). -/
def lockWaitGuard (lm : Option LockState) (key holder : String) : Except Err Unit :=
  match lm with
  | some ls =>
    if is_lock_holder ls key holder then Except.ok ()
    else if is_locked ls key then Except.error Err.wouldBlock else Except.ok ()
  | none => Except.ok ()

/-- `ResultStore._read`: wait on any lock held by a different holder (blocking
is modelled as the `wouldBlock` outcome), lazily resolve default result
storage, then either indirect through separate metadata storage or read and
split one combined blob. -/
def ResultStore._read (store : ResultStore V B) (dflt : Storage V B)
    (key : String) (holder : String) :
    Except Err (ResultRecord V B × ResultStore V B) :=
  match lockWaitGuard store.lock_manager key holder with
  | .error e => .error e
  | .ok _ =>
    match store.metadata_storage with
    | some ms =>
      match readPath ms key with
      | .error e => .error e
      | .ok metadata_content =>
        match ResultRecordMetadata.load_bytes metadata_content with
        | .error e => .error e
        | .ok m =>
          match m.storage_key with
          | none => .error .assertionError
          | some sk =>
            match readPath (store.result_storage.getD dflt) sk with
            | .error e => .error e
            | .ok result_content =>
              match ResultRecord.deserialize_from_result_and_metadata
                  result_content metadata_content with
              | .error e => .error e
              | .ok rec =>
                .ok (rec,
                  { store with result_storage := some (store.result_storage.getD dflt) })
    | none =>
      match readPath (store.result_storage.getD dflt) key with
      | .error e => .error e
      | .ok content =>
        match ResultRecord.deserialize content with
        | .error e => .error e
        | .ok rec =>
          .ok (rec,
            { store with result_storage := some (store.result_storage.getD dflt) })

/-- `ResultStore.create_result_record`: a falsy (empty) key is replaced by a
key minted via `storage_key_fn`. -/
def ResultStore.create_result_record (store : ResultStore V B) (key : String)
    (obj : V) (expiration : Option Nat) : ResultRecord V B :=
  let key := if key = "" then store.storage_key_fn () else key
  { result := obj,
    metadata :=
      { serializer := store.serializer,
        expiration := expiration,
        storage_key := some key,
        storage_block_id := store.result_storage_block_id } }

/-- `ResultStore._persist_result_record`: requires a storage key, fails with a
`RuntimeError` when the key is locked by a different holder, lazily resolves
default result storage, then writes payload and metadata separately when
metadata storage is configured, or one combined blob otherwise.  Returns the
updated store together with the log of `write_path` calls performed. -/
def ResultStore._persist_result_record (store : ResultStore V B)
    (dflt : Storage V B) (rec : ResultRecord V B) (holder : String) :
    Except Err (ResultStore V B × List (String × Blob V B)) :=
  match rec.metadata.storage_key with
  | none => .error .assertionError
  | some key =>
    if lockedByOtherGuard store.lock_manager key holder then .error .runtimeError
    else
      match store.metadata_storage with
      | some ms =>
        match rec.serialize_result with
        | .error e => .error e
        | .ok b =>
          .ok ({ store with
              result_storage :=
                some (writePath (store.result_storage.getD dflt) key (.payload b)),
              metadata_storage := some (writePath ms key rec.serialize_metadata) },
            [(key, .payload b), (key, rec.serialize_metadata)])
      | none =>
        match rec.serialize with
        | .error e => .error e
        | .ok blob =>
          .ok ({ store with
              result_storage :=
                some (writePath (store.result_storage.getD dflt) key blob) },
            [(key, blob)])

/-- `ResultStore.write`: build a record via `create_result_record` and persist
it. -/
def ResultStore.write (store : ResultStore V B) (dflt : Storage V B)
    (key : String) (obj : V) (expiration : Option Nat) (holder : String) :
    Except Err (ResultStore V B × List (String × Blob V B)) :=
  store._persist_result_record dflt
    (store.create_result_record key obj expiration) holder

/-- Modelled from the spec: the isolation-level argument (§6) — the external
enumeration is two-valued; `other` models any non-enum value passed for
`level`, which falls through to the `ValueError` branch. -/
inductive IsolationLevelArg where
  | READ_COMMITTED
  | SERIALIZABLE
  | other (s : String)
  deriving DecidableEq, Repr

/-- `ResultStore.supports_isolation_level`. -/
def ResultStore.supports_isolation_level (store : ResultStore V B)
    (level : IsolationLevelArg) : Except Err Bool :=
  match level with
  | .READ_COMMITTED => .ok true
  | .SERIALIZABLE => .ok store.lock_manager.isSome
  | .other _ => .error .valueError

/-- `ResultStore.store_parameters`: builds a record whose metadata records
`storage_key = str(identifier)` but writes the combined blob under the
prefixed key `parameters/<identifier>`.  Result storage is accessed directly
(unresolved storage raises). -/
def ResultStore.store_parameters (store : ResultStore V B)
    (identifier : String) (parameters : V) :
    Except Err (ResultStore V B × List (String × Blob V B)) :=
  match store.result_storage with
  | none => .error .attributeError
  | some rs =>
    match ResultRecord.serialize
        { result := parameters,
          metadata := { serializer := store.serializer,
                        storage_key := some identifier } } with
    | .error e => .error e
    | .ok blob =>
      .ok ({ store with
          result_storage := some (writePath rs ("parameters/" ++ identifier) blob) },
        [("parameters/" ++ identifier, blob)])

/-- The `NotSet`-sentinel cache slot of a result reference. -/
inductive CacheVal (V : Type) where
  | notSet
  | val (v : V)

/-- `PersistedResult`: serialized fields (discriminator tag, serializer type,
storage key, storage block id, expiration, `serialize_to_none`) plus the
private runtime state (`_persisted`, `_should_cache_object`, the transient
cache, and resolved storage/serializer handles). -/
structure PersistedResult (V B : Type) where
  type : String := "reference"
  serializer_type : String
  storage_key : String
  storage_block_id : Option String := none
  expiration : Option Nat := none
  serialize_to_none : Bool := false
  persistedFlag : Bool := false
  should_cache_object : Bool := true
  cacheSlot : CacheVal V := .notSet
  storage_block_handle : Option (Storage V B) := none
  serializer_handle : Option (Serializer V B) := none

/-- The pydantic-serialized form of a `PersistedResult`: either exactly null,
or an object of the model's public fields. -/
inductive SerializedResult where
  | null
  | obj (type serializer_type storage_key : String)
      (storage_block_id : Option String) (expiration : Option Nat)
      (serialize_to_none : Bool)
  deriving DecidableEq, Repr

/-- `PersistedResult.serialize_model`: a reference with `serialize_to_none`
collapses to exactly null; otherwise the default field serialization. -/
def PersistedResult.serialize_model (r : PersistedResult V B) : SerializedResult :=
  if r.serialize_to_none then .null
  else .obj r.type r.serializer_type r.storage_key r.storage_block_id
    r.expiration r.serialize_to_none

/-- `PersistedResult._infer_path`: probe the storage block for a path
resolution capability. -/
def PersistedResult.infer_path (storage_block : Storage V B) (key : String) :
    Option String :=
  match storage_block.resolve_path with
  | some f => some (f key)
  | none => none

/-- `PersistedResult.create`: mint a key via `storage_key_fn`; when no storage
block identity is recorded and the block can resolve an absolute path, store
the absolute path as the key; construct the reference in the Built state with
the object cached transiently. -/
def PersistedResult.create (obj : V) (storage_block : Storage V B)
    (storage_block_id : Option String) (storage_key_fn : Unit → String)
    (serializer : Serializer V B) (cache_object : Bool)
    (expiration : Option Nat) (serialize_to_none : Bool) : PersistedResult V B :=
  let key := storage_key_fn ()
  let uri := PersistedResult.infer_path storage_block key
  let key :=
    if storage_block_id = none then
      match uri with
      | some u => u
      | none => key
    else key
  { serializer_type := serializer.type,
    storage_key := key,
    storage_block_id := storage_block_id,
    expiration := expiration,
    serialize_to_none := serialize_to_none,
    persistedFlag := false,
    should_cache_object := cache_object,
    cacheSlot := .val obj,
    storage_block_handle := some storage_block,
    serializer_handle := some serializer }

/-- The ad-hoc `ResultStore(result_storage=..., serializer=...)` construction
used inside `PersistedResult.write` and `get`; all other fields take their
defaults. -/
def mkAdHocStore (rs : Storage V B) (ser : Serializer V B) : ResultStore V B :=
  { result_storage := some rs, serializer := ser }

/-- `PersistedResult.write`: a no-op when already persisted or when
`serialize_to_none` is set; otherwise requires an object (argument or cache),
resolves the storage block (cached handle, else registry lookup by block id,
else default storage), resolves the serializer (cached handle, else
reconstructed from `serializer_type` via the external registry), persists
through an ad-hoc store, marks the reference persisted, and drops the cache
unless caching was requested.  Returns the updated reference and the log of
`write_path` calls performed. -/
def PersistedResult.write (self : PersistedResult V B) (obj : Option V)
    (blockOfId : String → Option (Storage V B)) (dflt : Storage V B)
    (serializerOfType : String → Serializer V B) :
    Except Err (PersistedResult V B × List (String × Blob V B)) :=
  if self.persistedFlag || self.serialize_to_none then .ok (self, [])
  else
    match (match obj with
      | some o => Except.ok o
      | none =>
        match self.cacheSlot with
        | .val v => Except.ok v
        | .notSet => Except.error Err.valueError) with
    | .error e => .error e
    | .ok o =>
      match (match self.storage_block_handle with
        | some sb => Except.ok sb
        | none =>
          match self.storage_block_id with
          | some bid =>
            match blockOfId bid with
            | some sb => Except.ok sb
            | none => Except.error Err.notFound
          | none => Except.ok dflt) with
      | .error e => .error e
      | .ok sb =>
        match (mkAdHocStore sb
            (match self.serializer_handle with
              | some s => s
              | none => serializerOfType self.serializer_type)).write dflt
            self.storage_key o self.expiration generate_default_holder with
        | .error e => .error e
        | .ok (store', log) =>
          .ok ({ self with
              persistedFlag := true,
              storage_block_handle := store'.result_storage,
              cacheSlot :=
                if self.should_cache_object then self.cacheSlot else .notSet },
            log)

/-- `ResultStore.create_result`: choose in-memory caching when enabled or when
the object is the null sentinel (`isNone` models Python's `obj is None`),
treat a falsy key argument as absent (falling back to the store's
`storage_key_fn`), lazily resolve default result storage, and delegate to
`PersistedResult.create` with `serialize_to_none` the negation of the
persist-by-default flag. -/
def ResultStore.create_result (store : ResultStore V B) (dflt : Storage V B)
    (isNone : V → Bool) (obj : V) (key : Option String)
    (expiration : Option Nat) : PersistedResult V B × ResultStore V B :=
  let should_cache_object := store.cache_result_in_memory || isNone obj
  let storage_key_fn :=
    match key with
    | some k => if k = "" then store.storage_key_fn else fun _ => k
    | none => store.storage_key_fn
  let rs := store.result_storage.getD dflt
  let store' := { store with result_storage := some rs }
  (PersistedResult.create obj rs store'.result_storage_block_id storage_key_fn
      store.serializer should_cache_object expiration (!store.persist_result),
    store')

/-- The raw nested-metadata dictionary shape seen by the pydantic validator;
field values are abstract JSON values (`J`). -/
structure RawMetaDict (J : Type) where
  storage_key : Option J := none
  expiration : Option J := none
  serializer : Option J := none
  prefect_version : Option J := none
  storage_block_id : Option J := none
  deriving DecidableEq, Repr

/-- The raw record dictionary shape seen by the pydantic validator before
validation: possibly the legacy flat layout. -/
structure RawRecordDict (J : Type) where
  data : Option J := none
  result : Option J := none
  metadata : Option (RawMetaDict J) := none
  expiration : Option J := none
  serializer : Option J := none
  prefect_version : Option J := none
  deriving DecidableEq, Repr

/-- `ResultRecord.coerce_old_format`: rename a top-level `data` field to
`result`, create a nested `metadata` object when absent, and move top-level
`expiration`, `serializer` and `prefect_version` fields into it. -/
def coerce_old_format {J : Type} (value : RawRecordDict J) : RawRecordDict J :=
  let value :=
    match value.data with
    | some d => { value with result := some d, data := none }
    | none => value
  let value :=
    match value.metadata with
    | some _ => value
    | none => { value with metadata := some {} }
  let value :=
    match value.expiration with
    | some e =>
      { value with
        metadata := some { value.metadata.getD {} with expiration := some e },
        expiration := none }
    | none => value
  let value :=
    match value.serializer with
    | some s =>
      { value with
        metadata := some { value.metadata.getD {} with serializer := some s },
        serializer := none }
    | none => value
  let value :=
    match value.prefect_version with
    | some p =>
      { value with
        metadata := some { value.metadata.getD {} with prefect_version := some p },
        prefect_version := none }
    | none => value
  value

/-! Concrete fixtures over `V = Nat`, `B = Nat` used by witnesses and
counterexamples. -/

/-- A trivially invertible serializer over natural-number values. -/
def natSerializer : Serializer Nat Nat :=
  { type := "nat", dumps := fun v => .ok v, loads := fun b => .ok b }

/-- An empty storage backend with no path resolution and no block id. -/
def emptyStorage : Storage Nat Nat := { contents := [] }

/-- A store over empty result storage whose key function mints `"fresh"`. -/
def exStore : ResultStore Nat Nat :=
  { result_storage := some emptyStorage,
    serializer := natSerializer,
    storage_key_fn := fun _ => "fresh" }

/-- A metadata document whose recorded storage key differs from the key it is
stored under. -/
def splitMeta : ResultRecordMetadata Nat Nat :=
  { storage_key := some "elsewhere", serializer := natSerializer }

/-- A store with separate metadata storage holding a metadata document at
`"k"` whose recorded storage key `"elsewhere"` differs from `"k"`, and result
storage holding the payload at `"elsewhere"`. -/
def splitStore : ResultStore Nat Nat :=
  { result_storage := some { contents := [("elsewhere", .payload 7)] },
    metadata_storage := some { contents := [("k", .metadataBlob splitMeta)] },
    serializer := natSerializer }

/-- A concrete legacy flat record dictionary. -/
def flatDict : RawRecordDict Nat :=
  { data := some 1, expiration := some 2, serializer := some 3, prefect_version := some 4 }

/-- A concrete already-nested record dictionary. -/
def nestedDict : RawRecordDict Nat :=
  { result := some 1, metadata := some { expiration := some 2 } }

/-- A fresh (Built-state) reference over `natSerializer` with the object `5`
cached. -/
def freshRef : PersistedResult Nat Nat :=
  { serializer_type := "nat", storage_key := "k",
    storage_block_handle := some emptyStorage,
    serializer_handle := some natSerializer,
    cacheSlot := .val 5 }

/-- The record metadata produced when `freshRef` is written. -/
def freshRefMeta : ResultRecordMetadata Nat Nat :=
  { serializer := natSerializer, storage_key := some "k" }

/-- The Persisted-state reference produced by writing `freshRef`. -/
def writtenFreshRef : PersistedResult Nat Nat :=
  { freshRef with
      persistedFlag := true,
      storage_block_handle := some { contents := [("k", .record freshRefMeta 5)] } }

/-- A reference with persistence disabled by configuration. -/
def noneRef : PersistedResult Nat Nat :=
  { serializer_type := "nat", storage_key := "k", serialize_to_none := true }

/-- `exStore` with a lock manager whose state has key `"k"` held by `"A"`. -/
def lockStore : ResultStore Nat Nat :=
  { exStore with lock_manager := some [("k", "A")] }

/-- A concrete record with storage key `"k"`. -/
def exRecord : ResultRecord Nat Nat := exStore.create_result_record "k" 42 none

/-- The store state after persisting `exRecord` into `exStore`. -/
def exPersistedStore : ResultStore Nat Nat :=
  { exStore with
      result_storage := some { contents := [("k", .record exRecord.metadata 42)] } }

/-! ## Theorems -/

/-- C4: `supports_isolation_level` returns true for READ_COMMITTED on every
store, returns true for SERIALIZABLE iff a lock manager is configured, and
raises a `ValueError` for any other level argument. -/
theorem C4_supports_isolation_level (store : ResultStore V B) :
    store.supports_isolation_level .READ_COMMITTED = .ok true ∧
    (store.supports_isolation_level .SERIALIZABLE = .ok true ↔
      store.lock_manager.isSome = true) ∧
    ∀ s, store.supports_isolation_level (.other s) = .error .valueError := by
  refine ⟨rfl, ?_, fun s => rfl⟩
  simp [ResultStore.supports_isolation_level]

/-- C5: a `PersistedResult` with `serialize_to_none` set serializes to exactly
the null value (never an object), and its `write` is a no-op performing no
storage write. -/
theorem C5_serialize_to_none_null_and_noop (r : PersistedResult V B)
    (obj : Option V) (blockOfId : String → Option (Storage V B))
    (dflt : Storage V B) (serializerOfType : String → Serializer V B)
    (h : r.serialize_to_none = true) :
    r.serialize_model = .null ∧
    (∀ t st sk sbi e stn, r.serialize_model ≠ .obj t st sk sbi e stn) ∧
    r.write obj blockOfId dflt serializerOfType = .ok (r, []) := by
  refine ⟨?_, ?_, ?_⟩
  · simp [PersistedResult.serialize_model, h]
  · intro t st sk sbi e stn
    simp [PersistedResult.serialize_model, h]
  · simp [PersistedResult.write, h]

/-- C7: `_exists` is a total boolean probe: when metadata storage is
configured it reports exactly whether the metadata read succeeds and is
independent of result storage; otherwise it reports whether the result-storage
read succeeds, with unconfigured storage reported as false.  Every probe
failure is caught and mapped to false, never propagated. -/
theorem C7_exists_probe_never_raises (store : ResultStore V B) (key : String) :
    (∀ ms, store.metadata_storage = some ms →
      store._exists key = exceptIsOk (readPath ms key) ∧
      ∀ rs, ResultStore._exists { store with result_storage := rs } key
        = store._exists key) ∧
    (store.metadata_storage = none →
      store._exists key =
        match store.result_storage with
        | some rs => exceptIsOk (readPath rs key)
        | none => false) := by
  constructor
  · intro ms hms
    constructor
    · simp only [ResultStore._exists, hms]
      cases readPath ms key <;> rfl
    · intro rs
      simp only [ResultStore._exists, hms]
  · intro hms
    simp only [ResultStore._exists, hms]
    cases store.result_storage with
    | none => rfl
    | some rs => cases h : readPath rs key <;> simp [exceptIsOk, h]

/-- C7 witness: on the concrete split store, a present metadata key probes
true and an absent key probes false. -/
theorem C7_exists_witness :
    splitStore._exists "k" = true ∧ splitStore._exists "missing" = false := by
  constructor
  · rw [((C7_exists_probe_never_raises splitStore "k").1 _ rfl).1]; rfl
  · rw [((C7_exists_probe_never_raises splitStore "missing").1 _ rfl).1]; rfl

/-- C10: key-minting triggers on falsy keys: `create_result_record` (and
therefore `write`) replaces an empty-string key by a key minted via the
store's `storage_key_fn`, and `create_result` treats an empty-string key
argument exactly like an absent one. -/
theorem C10_falsy_key_minting (store : ResultStore V B) (dflt : Storage V B)
    (isNone : V → Bool) (obj : V) (expiration : Option Nat) (holder : String) :
    store.create_result_record "" obj expiration
      = store.create_result_record (store.storage_key_fn ()) obj expiration ∧
    (store.create_result_record "" obj expiration).metadata.storage_key
      = some (store.storage_key_fn ()) ∧
    store.write dflt "" obj expiration holder
      = store.write dflt (store.storage_key_fn ()) obj expiration holder ∧
    store.create_result dflt isNone obj (some "") expiration
      = store.create_result dflt isNone obj none expiration := by
  have h1 : store.create_result_record "" obj expiration
      = store.create_result_record (store.storage_key_fn ()) obj expiration := by
    simp [ResultStore.create_result_record]
  refine ⟨h1, ?_, ?_, ?_⟩
  · simp [ResultStore.create_result_record]
  · unfold ResultStore.write
    rw [h1]
  · simp [ResultStore.create_result]

/-- C8: `coerce_old_format` is a pure data migration: a top-level `data` field
is renamed to `result`, top-level `expiration`/`serializer`/`prefect_version`
fields are cleared from the top level and moved into the nested `metadata`
object (which is created when absent and whose other fields are kept), and an
already-nested input (metadata present, no flat fields) is left unchanged. -/
theorem C8_coerce_old_format_migration {J : Type} (d : RawRecordDict J) :
    ((coerce_old_format d).data = none ∧
     (coerce_old_format d).result = (if d.data.isSome then d.data else d.result) ∧
     (coerce_old_format d).expiration = none ∧
     (coerce_old_format d).serializer = none ∧
     (coerce_old_format d).prefect_version = none ∧
     ∃ m, (coerce_old_format d).metadata = some m ∧
       m.expiration
         = (if d.expiration.isSome then d.expiration else (d.metadata.getD {}).expiration) ∧
       m.serializer
         = (if d.serializer.isSome then d.serializer else (d.metadata.getD {}).serializer) ∧
       m.prefect_version
         = (if d.prefect_version.isSome then d.prefect_version
            else (d.metadata.getD {}).prefect_version) ∧
       m.storage_key = (d.metadata.getD {}).storage_key ∧
       m.storage_block_id = (d.metadata.getD {}).storage_block_id) ∧
    (d.metadata.isSome = true → d.data = none → d.expiration = none →
     d.serializer = none → d.prefect_version = none → coerce_old_format d = d) := by
  obtain ⟨dd, dr, dm, de, ds, dp⟩ := d
  constructor
  · cases dd <;> cases dm <;> cases de <;> cases ds <;> cases dp <;>
      simp [coerce_old_format]
  · intro hm h1 h2 h3 h4
    simp only at h1 h2 h3 h4
    subst h1; subst h2; subst h3; subst h4
    cases dm with
    | none => simp at hm
    | some m => simp [coerce_old_format]

/-- C8 witness: the flat dictionary's `data` lands in `result`, and the nested
dictionary is left unchanged. -/
theorem C8_coerce_witness :
    (coerce_old_format flatDict).result = some 1 ∧
    coerce_old_format nestedDict = nestedDict := by
  constructor
  · rw [(C8_coerce_old_format_migration flatDict).1.2.1]; rfl
  · exact (C8_coerce_old_format_migration nestedDict).2 rfl rfl rfl rfl rfl

/-- A successful `write` through the ad-hoc store built inside
`PersistedResult.write` performs exactly one `write_path` call: the ad-hoc
store has no metadata storage and no lock manager. -/
theorem adhoc_write_log {rs : Storage V B} {ser : Serializer V B}
    {dflt : Storage V B} {key : String} {obj : V} {expiration : Option Nat}
    {holder : String} {store' : ResultStore V B}
    {log : List (String × Blob V B)}
    (h : (mkAdHocStore rs ser).write dflt key obj expiration holder
      = .ok (store', log)) :
    log.length = 1 := by
  unfold ResultStore.write ResultStore._persist_result_record at h
  simp only [ResultStore.create_result_record, mkAdHocStore, lockedByOtherGuard,
    Bool.false_eq_true, if_false] at h
  split at h
  · exact absurd h (by simp)
  · simp only [Except.ok.injEq, Prod.mk.injEq] at h
    obtain ⟨-, hlog⟩ := h
    subst hlog
    rfl

/-- C2: `PersistedResult.write` is idempotent: it is a no-op (no storage
write) whenever the reference is already persisted or `serialize_to_none` is
set, and for a fresh reference whose first write succeeds, that write performs
exactly one storage write and a second write on the returned reference
performs none — so two writes perform exactly one storage write in total. -/
theorem C2_persisted_write_idempotent (self : PersistedResult V B)
    (obj obj2 : Option V) (blockOfId : String → Option (Storage V B))
    (dflt : Storage V B) (serializerOfType : String → Serializer V B) :
    (self.persistedFlag = true ∨ self.serialize_to_none = true →
      self.write obj blockOfId dflt serializerOfType = .ok (self, [])) ∧
    (∀ self' log, self.persistedFlag = false → self.serialize_to_none = false →
      self.write obj blockOfId dflt serializerOfType = .ok (self', log) →
      log.length = 1 ∧
      self'.write obj2 blockOfId dflt serializerOfType = .ok (self', [])) := by
  constructor
  · intro h
    rcases h with h | h <;> simp [PersistedResult.write, h]
  · intro self' log h1 h2 hok
    unfold PersistedResult.write at hok
    rw [h1, h2, if_neg (show ¬((false || false) = true) by simp)] at hok
    repeat'
      first
      | exact Except.noConfusion hok
      | split at hok
    all_goals
      simp only [Except.ok.injEq, Prod.mk.injEq] at hok
    all_goals
      obtain ⟨hself, hlog⟩ := hok
    all_goals
      subst hself
    all_goals
      subst hlog
    all_goals
      exact ⟨adhoc_write_log (by assumption), by simp [PersistedResult.write]⟩

/-- C3: persisting a record whose key is locked by a different holder fails
immediately with a `RuntimeError` — an error kind distinct from serialization
and configuration faults — and a successful persist never changes the lock
state (the store never acquires a lock on behalf of a writer). -/
theorem C3_contested_write_concurrency_error (store : ResultStore V B)
    (dflt : Storage V B) (rec : ResultRecord V B) (holder : String)
    (ls : LockState) (key otherHolder : String)
    (hm : store.lock_manager = some ls)
    (hk : rec.metadata.storage_key = some key)
    (hl : ls.lookup key = some otherHolder)
    (hne : otherHolder ≠ holder) :
    store._persist_result_record dflt rec holder = .error .runtimeError ∧
    Err.runtimeError ≠ Err.serializationError ∧
    Err.runtimeError ≠ Err.configurationError ∧
    ∀ (store1 : ResultStore V B) (dflt1 : Storage V B) (rec1 : ResultRecord V B)
      (holder1 : String),
      (∃ e, store1._persist_result_record dflt1 rec1 holder1 = .error e) ∨
      ∃ store2 log, store1._persist_result_record dflt1 rec1 holder1 = .ok (store2, log) ∧
        store2.lock_manager = store1.lock_manager := by
  refine ⟨?_, by simp, by simp, ?_⟩
  · unfold ResultStore._persist_result_record
    rw [hk]
    simp [lockedByOtherGuard, hm, is_locked, is_lock_holder, hl, hne]
  · intro store1 dflt1 rec1 holder1
    unfold ResultStore._persist_result_record
    repeat' split
    all_goals
      first
      | exact Or.inl ⟨_, rfl⟩
      | exact Or.inr ⟨_, _, rfl, rfl⟩

/-- The contested-lock test of `_persist_result_record` is false when the key
is unlocked or held by the caller. -/
theorem lockedByOther_false (lm : Option LockState) (key holder : String)
    (h : ∀ ls, lm = some ls → ls.lookup key = none ∨ ls.lookup key = some holder) :
    lockedByOtherGuard lm key holder = false := by
  cases lm with
  | none => rfl
  | some ls =>
    rcases h ls rfl with h1 | h1 <;>
      simp [lockedByOtherGuard, is_locked, is_lock_holder, h1]

/-- The lock wait of `_read` passes when the key is unlocked or held by the
caller. -/
theorem lockWait_ok (lm : Option LockState) (key holder : String)
    (h : ∀ ls, lm = some ls → ls.lookup key = none ∨ ls.lookup key = some holder) :
    lockWaitGuard lm key holder = Except.ok () := by
  cases lm with
  | none => rfl
  | some ls =>
    rcases h ls rfl with h1 | h1 <;>
      simp [lockWaitGuard, is_locked, is_lock_holder, h1]

/-- Reading back the key just written returns the written blob. -/
theorem readPath_writePath_self (s : Storage V B) (key : String) (blob : Blob V B) :
    readPath (writePath s key blob) key = .ok blob := by
  simp [readPath, writePath, List.lookup]

/-- A successful `serialize_result` comes from a successful `dumps`. -/
theorem serialize_result_ok {rec : ResultRecord V B} {b : B}
    (h : rec.serialize_result = .ok b) :
    rec.metadata.serializer.dumps rec.result = .ok b := by
  unfold ResultRecord.serialize_result at h
  split at h
  · rename_i b' heq
    cases h
    exact heq
  · exact Except.noConfusion h

/-- A successful `serialize` produces the combined blob of the record's
metadata and its `dumps` payload. -/
theorem serialize_ok {rec : ResultRecord V B} {blob : Blob V B}
    (h : rec.serialize = .ok blob) :
    ∃ b, rec.metadata.serializer.dumps rec.result = .ok b ∧
      blob = .record rec.metadata b := by
  unfold ResultRecord.serialize at h
  split at h
  · rename_i b heq
    cases h
    exact ⟨b, serialize_result_ok heq, rfl⟩
  · exact Except.noConfusion h

/-- Successful persist, combined-storage configuration: one write of the
combined blob under the record's storage key. -/
theorem persist_ok_combined (store : ResultStore V B) (dflt : Storage V B)
    (rec : ResultRecord V B) (holder key : String) (b : B)
    (hsk : rec.metadata.storage_key = some key)
    (hms : store.metadata_storage = none)
    (hlk : lockedByOtherGuard store.lock_manager key holder = false)
    (hdumps : rec.metadata.serializer.dumps rec.result = .ok b) :
    store._persist_result_record dflt rec holder =
      .ok ({ store with
          result_storage := some (writePath (store.result_storage.getD dflt) key
            (.record rec.metadata b)) },
        [(key, .record rec.metadata b)]) := by
  simp only [ResultStore._persist_result_record, hsk, hlk, hms, ResultRecord.serialize,
    ResultRecord.serialize_result, hdumps, Bool.false_eq_true, if_false]

/-- Successful persist, split-storage configuration: the payload is written to
result storage and the metadata document to metadata storage, both under the
record's storage key. -/
theorem persist_ok_split (store : ResultStore V B) (dflt : Storage V B)
    (rec : ResultRecord V B) (holder key : String) (b : B) (ms : Storage V B)
    (hsk : rec.metadata.storage_key = some key)
    (hms : store.metadata_storage = some ms)
    (hlk : lockedByOtherGuard store.lock_manager key holder = false)
    (hdumps : rec.metadata.serializer.dumps rec.result = .ok b) :
    store._persist_result_record dflt rec holder =
      .ok ({ store with
          result_storage := some (writePath (store.result_storage.getD dflt) key
            (.payload b)),
          metadata_storage := some (writePath ms key rec.serialize_metadata) },
        [(key, .payload b), (key, rec.serialize_metadata)]) := by
  simp only [ResultStore._persist_result_record, hsk, hlk, hms,
    ResultRecord.serialize_result, hdumps, Bool.false_eq_true, if_false]

/-- Successful read, combined-storage configuration. -/
theorem read_ok_combined (store : ResultStore V B) (dflt : Storage V B)
    (key holder : String) (m : ResultRecordMetadata V B) (b : B) (v : V)
    (hms : store.metadata_storage = none)
    (hl : ∀ ls, store.lock_manager = some ls →
      ls.lookup key = none ∨ ls.lookup key = some holder)
    (hread : readPath (store.result_storage.getD dflt) key = .ok (.record m b))
    (hloads : m.serializer.loads b = .ok v) :
    store._read dflt key holder = .ok ({ metadata := m, result := v },
      { store with result_storage := some (store.result_storage.getD dflt) }) := by
  simp only [ResultStore._read, lockWait_ok store.lock_manager key holder hl, hms,
    hread, ResultRecord.deserialize, hloads]

/-- Successful read, split-storage configuration: the metadata is read at the
key, the payload at the metadata's recorded storage key. -/
theorem read_ok_split (store : ResultStore V B) (dflt : Storage V B)
    (key holder sk : String) (ms : Storage V B) (m : ResultRecordMetadata V B)
    (p : B) (v : V)
    (hms : store.metadata_storage = some ms)
    (hl : ∀ ls, store.lock_manager = some ls →
      ls.lookup key = none ∨ ls.lookup key = some holder)
    (hmeta : readPath ms key = .ok (.metadataBlob m))
    (hsk : m.storage_key = some sk)
    (hres : readPath (store.result_storage.getD dflt) sk = .ok (.payload p))
    (hloads : m.serializer.loads p = .ok v) :
    store._read dflt key holder = .ok ({ metadata := m, result := v },
      { store with result_storage := some (store.result_storage.getD dflt) }) := by
  simp only [ResultStore._read, lockWait_ok store.lock_manager key holder hl, hms,
    hmeta, ResultRecordMetadata.load_bytes, hsk, hres,
    ResultRecord.deserialize_from_result_and_metadata, hloads]

/-- C1 (amended): for every nonempty key that is not locked by a holder other
than the caller, and every serializer round-tripping on the value, `write(key,
v)` followed by `read(key)` returns a record whose `result` equals `v` (over
any storage configuration, combined or split). -/
theorem C1_roundtrip_nonempty_key (store : ResultStore V B) (dflt : Storage V B)
    (key : String) (v : V) (b : B) (expiration : Option Nat) (holder : String)
    (hkey : key ≠ "")
    (hdumps : store.serializer.dumps v = .ok b)
    (hloads : store.serializer.loads b = .ok v)
    (hlock : ∀ ls, store.lock_manager = some ls →
      ls.lookup key = none ∨ ls.lookup key = some holder) :
    ∃ store' log rec store'',
      store.write dflt key v expiration holder = .ok (store', log) ∧
      store'._read dflt key holder = .ok (rec, store'') ∧
      rec.result = v := by
  have hsk : (store.create_result_record key v expiration).metadata.storage_key
      = some key := by
    simp [ResultStore.create_result_record, hkey]
  have hser : (store.create_result_record key v expiration).metadata.serializer
      = store.serializer := by
    simp [ResultStore.create_result_record]
  have hres : (store.create_result_record key v expiration).result = v := by
    simp [ResultStore.create_result_record]
  have hlk := lockedByOther_false store.lock_manager key holder hlock
  have hd : (store.create_result_record key v expiration).metadata.serializer.dumps
      (store.create_result_record key v expiration).result = .ok b := by
    rw [hser, hres]
    exact hdumps
  cases hms : store.metadata_storage with
  | none =>
    have hp := persist_ok_combined store dflt
      (store.create_result_record key v expiration) holder key b hsk hms hlk hd
    refine ⟨_, _, _, _, hp, read_ok_combined _ dflt key holder
      (store.create_result_record key v expiration).metadata b v hms hlock ?_ ?_, rfl⟩
    · exact readPath_writePath_self _ key _
    · rw [hser]
      exact hloads
  | some ms =>
    have hp := persist_ok_split store dflt
      (store.create_result_record key v expiration) holder key b ms hsk hms hlk hd
    refine ⟨_, _, _, _, hp, read_ok_split _ dflt key holder key _
      (store.create_result_record key v expiration).metadata b v rfl hlock
      (readPath_writePath_self _ key _) hsk (readPath_writePath_self _ key _) ?_, rfl⟩
    rw [hser]
    exact hloads

/-- C1 counterexample: with an empty key, `write` succeeds (under a freshly
minted key) but `read` of the same empty key fails, so the round trip does not
hold for every string key even with a fully supported serializer. -/
theorem C1_counterexample_empty_key :
    natSerializer.dumps 42 = .ok 42 ∧
    natSerializer.loads 42 = .ok 42 ∧
    exceptIsOk (exStore.write emptyStorage "" 42 none "h") = true ∧
    exceptIsOk ((exStore.write emptyStorage "" 42 none "h").bind
      (fun p => p.1._read emptyStorage "" "h")) = false :=
  ⟨rfl, rfl, rfl, rfl⟩

/-- C1 witness: the concrete store round-trips the value 42 under key `"k"`. -/
theorem C1_roundtrip_witness :
    ∃ store' log rec store'',
      exStore.write emptyStorage "k" 42 none "h" = .ok (store', log) ∧
      store'._read emptyStorage "k" "h" = .ok (rec, store'') ∧
      rec.result = 42 :=
  C1_roundtrip_nonempty_key exStore emptyStorage "k" 42 42 none "h"
    (by decide) rfl rfl (fun ls h => Option.noConfusion h)

/-- C6: with separate metadata storage, `read(key)` reads the metadata blob at
`key` from metadata storage, requires its `storage_key` to be present (a
missing storage key is an assertion failure), reads the payload from result
storage under that recorded storage key (which may differ from `key`), and
composes the two into one record decoded with the serializer named in the
metadata. -/
theorem C6_split_storage_read_indirection (store : ResultStore V B)
    (dflt : Storage V B) (ms : Storage V B) (m : ResultRecordMetadata V B)
    (key sk holder : String) (p : B) (v : V)
    (hms : store.metadata_storage = some ms)
    (hlock : ∀ ls, store.lock_manager = some ls →
      ls.lookup key = none ∨ ls.lookup key = some holder)
    (hmeta : readPath ms key = .ok (.metadataBlob m))
    (hsk : m.storage_key = some sk)
    (hres : readPath (store.result_storage.getD dflt) sk = .ok (.payload p))
    (hloads : m.serializer.loads p = .ok v) :
    store._read dflt key holder
      = .ok ({ metadata := m, result := v },
          { store with result_storage := some (store.result_storage.getD dflt) }) ∧
    ∀ (store2 : ResultStore V B) (dflt2 ms2 : Storage V B)
      (m2 : ResultRecordMetadata V B) (key2 holder2 : String),
      store2.metadata_storage = some ms2 →
      (∀ ls, store2.lock_manager = some ls →
        ls.lookup key2 = none ∨ ls.lookup key2 = some holder2) →
      readPath ms2 key2 = .ok (.metadataBlob m2) →
      m2.storage_key = none →
      store2._read dflt2 key2 holder2 = .error .assertionError := by
  constructor
  · exact read_ok_split store dflt key holder sk ms m p v hms hlock hmeta hsk
      hres hloads
  · intro store2 dflt2 ms2 m2 key2 holder2 hms2 hlock2 hmeta2 hsk2
    simp only [ResultStore._read, lockWait_ok store2.lock_manager key2 holder2 hlock2,
      hms2, hmeta2, ResultRecordMetadata.load_bytes, hsk2]

/-- C6 witness: the concrete split store indirects through the recorded
storage key `"elsewhere"` (different from the read key `"k"`) and returns the
payload value 7. -/
theorem C6_split_witness :
    splitStore._read emptyStorage "k" "h"
      = .ok ({ metadata := splitMeta, result := 7 }, splitStore) ∧
    ("elsewhere" : String) ≠ "k" := by
  constructor
  · exact (C6_split_storage_read_indirection splitStore emptyStorage _ splitMeta
      "k" "elsewhere" "h" 7 7 rfl (fun ls h => Option.noConfusion h)
      rfl rfl rfl rfl).1
  · decide

/-- C9 counterexample: `store_parameters` records `storage_key = "abc"` in the
record's metadata but stores the blob under `"parameters/abc"`; nothing is
stored under the recorded key, so metadata alone does not locate the payload
of parameter records. -/
theorem C9_counterexample_store_parameters :
    exceptIsOk (exStore.store_parameters "abc" 42) = true ∧
    (match exStore.store_parameters "abc" 42 with
     | .ok (s', log) =>
       (match s'.result_storage with
        | some rs => (rs.contents.lookup "abc").isNone
            && (rs.contents.lookup "parameters/abc").isSome
        | none => false)
       && (match log with
           | [(k, Blob.record m _)] =>
             (k == "parameters/abc") && (m.storage_key == some "abc")
           | _ => false)
     | .error _ => false) = true :=
  ⟨rfl, rfl⟩

/-- C9 (amended): every record persisted through `_persist_result_record` has
its payload stored under the storage key recorded in its metadata, encoded by
the serializer recorded there; `store_parameters`, however, writes the record
under the prefixed key `parameters/<id>` while its metadata records the bare
`<id>` as storage key. -/
theorem C9_amended_payload_under_recorded_key (store : ResultStore V B)
    (dflt : Storage V B) (rec : ResultRecord V B) (holder key : String)
    (store' : ResultStore V B) (log : List (String × Blob V B))
    (hk : rec.metadata.storage_key = some key)
    (hok : store._persist_result_record dflt rec holder = .ok (store', log)) :
    (∃ rs' b, store'.result_storage = some rs' ∧
      rec.metadata.serializer.dumps rec.result = .ok b ∧
      (rs'.contents.lookup key = some (.payload b) ∨
       rs'.contents.lookup key = some (.record rec.metadata b))) ∧
    ∀ (store2 : ResultStore V B) (id : String) (p : V),
      (∃ e, store2.store_parameters id p = .error e) ∨
      ∃ store3 b2, store2.store_parameters id p
          = .ok (store3, [("parameters/" ++ id,
              .record { serializer := store2.serializer, storage_key := some id } b2)]) := by
  constructor
  · unfold ResultStore._persist_result_record at hok
    rw [hk] at hok
    repeat' split at hok
    all_goals try exact Except.noConfusion hok
    · rename_i sk heq1 hguard x2 ms hms x3 b heqb
      obtain rfl : key = sk := Option.some.inj heq1
      cases hok
      exact ⟨_, b, rfl, serialize_result_ok heqb,
        Or.inl (by simp [writePath, List.lookup])⟩
    · rename_i sk heq1 hguard x2 hms x3 blob heqblob
      obtain rfl : key = sk := Option.some.inj heq1
      obtain ⟨b, hd, hb⟩ := serialize_ok heqblob
      subst hb
      cases hok
      exact ⟨_, b, rfl, hd, Or.inr (by simp [writePath, List.lookup])⟩
  · intro store2 id p
    unfold ResultStore.store_parameters
    split
    · exact Or.inl ⟨_, rfl⟩
    · split
      · exact Or.inl ⟨_, rfl⟩
      · rename_i rs blob heq
        obtain ⟨b, hd, hb⟩ := serialize_ok heq
        subst hb
        exact Or.inr ⟨_, b, rfl⟩

/-- C9 witness: persisting the concrete record with storage key `"k"` stores
the combined blob under `"k"` in the updated store. -/
theorem C9_amended_witness :
    ∃ rs' b, exPersistedStore.result_storage = some rs' ∧
      exRecord.metadata.serializer.dumps exRecord.result = .ok b ∧
      (rs'.contents.lookup "k" = some (.payload b) ∨
       rs'.contents.lookup "k" = some (.record exRecord.metadata b)) :=
  (C9_amended_payload_under_recorded_key exStore emptyStorage exRecord "h" "k"
    exPersistedStore [("k", .record exRecord.metadata 42)] rfl rfl).1

/-- C2 witness: writing the fresh reference performs exactly one storage
write, and a second write on the returned reference performs none. -/
theorem C2_idempotent_witness :
    freshRef.write none (fun _ => none) emptyStorage (fun _ => natSerializer)
        = .ok (writtenFreshRef, [("k", .record freshRefMeta 5)]) ∧
    ([("k", (Blob.record freshRefMeta 5 : Blob Nat Nat))]).length = 1 ∧
    writtenFreshRef.write none (fun _ => none) emptyStorage (fun _ => natSerializer)
        = .ok (writtenFreshRef, []) := by
  have h : freshRef.write none (fun _ => none) emptyStorage (fun _ => natSerializer)
      = .ok (writtenFreshRef, [("k", .record freshRefMeta 5)]) := by rfl
  exact ⟨h, (C2_persisted_write_idempotent freshRef none none (fun _ => none)
    emptyStorage (fun _ => natSerializer)).2 writtenFreshRef
    [("k", .record freshRefMeta 5)] rfl rfl h⟩

/-- C3 witness: with key `"k"` locked by holder `"A"`, a persist by holder
`"B"` fails with the runtime (concurrency) error. -/
theorem C3_contested_witness :
    lockStore._persist_result_record emptyStorage exRecord "B"
      = .error .runtimeError :=
  (C3_contested_write_concurrency_error lockStore emptyStorage exRecord "B"
    [("k", "A")] "k" "A" rfl rfl rfl (by decide)).1

/-- C5 witness: the concrete persistence-disabled reference serializes to null
and its write is a no-op. -/
theorem C5_serialize_to_none_witness :
    noneRef.serialize_model = .null ∧
    noneRef.write none (fun _ => none) emptyStorage (fun _ => natSerializer)
      = .ok (noneRef, []) :=
  ⟨(C5_serialize_to_none_null_and_noop noneRef none (fun _ => none) emptyStorage
      (fun _ => natSerializer) rfl).1,
   (C5_serialize_to_none_null_and_noop noneRef none (fun _ => none) emptyStorage
      (fun _ => natSerializer) rfl).2.2⟩

end PrefectResults
